import Mathlib

/-!
Shallow embedding of `src/urpatimeout/timeout.py` (the `Timeout` class).

Time is passed explicitly: every operation that reads `time.time_ns()` in
Python takes the clock reading `now : Int` (nanoseconds since epoch) as an
argument.  The single shared file `PERSISTENT_TMP_FILE` is modelled as an
`Option PersistRecord` value threaded through the operations: `none` means
the file does not exist, `some r` that it exists and holds record `r`.
Python's `//` is floor division, embedded as `Int.fdiv`.
-/

namespace Urpatimeout

/-- Contents of the shared persisted-state file `timeout_tmp.json`:
the JSON object has exactly the keys `start` (nanoseconds since epoch)
and `timeout` (milliseconds). -/
structure PersistRecord where
  start : Int
  timeout : Int
  deriving Repr, DecidableEq

/-- State of the file system as seen by the module: `none` when the file
`PERSISTENT_TMP_FILE` does not exist, `some r` when it exists holding `r`. -/
abbrev FS := Option PersistRecord

/-- Embeds `os.path.isfile(PERSISTENT_TMP_FILE)`. -/
def isfile (fs : FS) : Bool := fs.isSome

/-- The `timeout` argument of `__init__` / `reset` / `_set_timeout`:
an `int` duration in milliseconds, a `datetime.datetime` (represented by
its timestamp in nanoseconds since epoch), or a value of any other type,
which the `isinstance` check on line 66 rejects. -/
inductive Arg where
  | ms (d : Int)
  | dt (ns : Int)
  | other
  deriving Repr, DecidableEq

/-- Errors raised by `_set_timeout`: the `TypeError` of line 67 and the
`ValueError` of line 71. -/
inductive Err where
  | typeError
  | valueError
  deriving Repr, DecidableEq

/-- Embeds lines 66-69 of `Timeout._set_timeout`: the `isinstance` check and
the `datetime`-to-duration conversion
`(int(timeout.timestamp() * 1_000_000_000) - self.start) // 1_000_000`,
where `//` is Python floor division, hence `Int.fdiv`. -/
def resolve (start : Int) (arg : Arg) : Except Err Int :=
  match arg with
  | .other => .error .typeError
  | .ms d => .ok d
  | .dt ns => .ok (Int.fdiv (ns - start) 1000000)

/-- Embeds `Timeout._set_timeout` (lines 56-83) as a function of the pieces
of `self` that it reads (`start`, `past_safe`, `persistent`), the argument
and the file system.  The result is either the raised error or the pair
(new `self.start`, returned timeout value), together with the file system
after the call. -/
def set_timeout (start : Int) (past_safe persistent : Bool) (arg : Arg) (fs : FS) :
    Except Err (Int × Int) × FS :=
  match resolve start arg with
  | .error e => (.error e, fs)
  | .ok t =>
    if t < 0 && past_safe then
      (.error .valueError, fs)
    else if persistent then
      match fs with
      | some data => (.ok (data.start, data.timeout), some ⟨data.start, data.timeout⟩)
      | none => (.ok (start, t), some ⟨start, t⟩)
    else
      (.ok (start, t), fs)

/-- In-memory state of a `Timeout` instance: the four attributes set by
`__init__` (lines 47-50). -/
structure Timeout where
  start : Int
  past_safe : Bool
  persistent : Bool
  timeout : Int
  deriving Repr, DecidableEq

/-- Embeds `Timeout.__init__` (lines 34-50): `self.start` is the clock
reading `now` taken at construction, then `_set_timeout` runs.  On an
exception no instance is produced; the file system after the call is
returned in both cases. -/
def init (now : Int) (arg : Arg) (past_safe persistent : Bool) (fs : FS) :
    Except Err Timeout × FS :=
  match set_timeout now past_safe persistent arg fs with
  | (.ok (s, t), fs') => (.ok ⟨s, past_safe, persistent, t⟩, fs')
  | (.error e, fs') => (.error e, fs')

/-- Embeds `Timeout.elapsed` (line 91):
`(time.time_ns() - self.start) // 1_000_000` with the clock reading `now`
passed explicitly. -/
def Timeout.elapsed (t : Timeout) (now : Int) : Int :=
  Int.fdiv (now - t.start) 1000000

/-- Embeds `Timeout.remaining` (line 99): `self.timeout - self.elapsed()`. -/
def Timeout.remaining (t : Timeout) (now : Int) : Int :=
  t.timeout - t.elapsed now

/-- Embeds `Timeout.is_expired` (lines 101-111): the boolean result together
with the file system after the call (the file is removed when present). -/
def Timeout.is_expired (t : Timeout) (now : Int) (fs : FS) : Bool × FS :=
  if t.remaining now ≤ 0 then
    (true, if isfile fs then none else fs)
  else
    (false, fs)

/-- Embeds `Timeout.reset` (lines 113-125).  Python mutates `self.start`
before the fallible `_set_timeout` call, so on an exception the returned
state keeps the re-anchored `start`; the raised error, if any, is the third
component of the result. -/
def Timeout.reset (t : Timeout) (now : Int) (arg : Option Arg) (fs : FS) :
    Timeout × FS × Option Err :=
  let t1 : Timeout := { t with start := now }
  match arg with
  | some a =>
    match set_timeout t1.start t1.past_safe t1.persistent a fs with
    | (.ok (s, tm), fs') => ({ t1 with start := s, timeout := tm }, fs', none)
    | (.error e, fs') => (t1, fs', some e)
  | none => (t1, some ⟨t1.start, t1.timeout⟩, none)

/-- Modelled from the spec for the comparison in claim C6 only: the
resolved duration of a calendar instant as the claim words it, using
truncating (toward-zero) integer division — `Int.tdiv` — on the
nanosecond-to-millisecond conversion of the difference. -/
def resolve_spec_trunc (start ns : Int) : Int :=
  Int.tdiv (ns - start) 1000000

/-- Helper: when `_set_timeout` raises, the raise happens before the file
write on lines 81-82, so the file system is unchanged. -/
theorem set_timeout_error_fs (s : Int) (ps per : Bool) (a : Arg) (fs : FS)
    (e : Err) (h : (set_timeout s ps per a fs).1 = .error e) :
    (set_timeout s ps per a fs).2 = fs := by
  unfold set_timeout at h ⊢
  cases hr : resolve s a with
  | error e' => simp [hr]
  | ok t =>
    simp only [hr] at h ⊢
    by_cases hneg : (t < 0 && ps) = true
    · simp [hneg]
    · simp only [hneg] at h ⊢
      cases per with
      | false => simp at h ⊢
      | true =>
        cases fs with
        | none => simp at h
        | some r => simp at h

/-- Helper: with `persistent = False` the body of the `if self.persistent`
block on lines 75-82 never runs, so `_set_timeout` leaves the file system
unchanged. -/
theorem set_timeout_nonpersistent_fs (s : Int) (ps : Bool) (a : Arg) (fs : FS) :
    (set_timeout s ps false a fs).2 = fs := by
  unfold set_timeout
  cases hr : resolve s a with
  | error e' => simp
  | ok t =>
    by_cases hneg : (t < 0 && ps) = true
    · simp [hneg]
    · simp [hneg]

/-- Helper: a successful `_set_timeout` with `persistent = True` and the
file present returns exactly the loaded record and writes it back. -/
theorem set_timeout_persistent_file_ok (s : Int) (ps : Bool) (a : Arg)
    (r : PersistRecord) (res : Int × Int) (fs' : FS)
    (h : set_timeout s ps true a (some r) = (.ok res, fs')) :
    res = (r.start, r.timeout) ∧ fs' = some ⟨r.start, r.timeout⟩ := by
  unfold set_timeout at h
  cases hr : resolve s a with
  | error e' => simp [hr] at h
  | ok t =>
    simp only [hr] at h
    by_cases hneg : (t < 0 && ps) = true
    · simp [hneg] at h
    · simp [hneg] at h
      exact ⟨h.1.symm, h.2.symm⟩

/-- C1: for a construction or a reset that resolves a timeout with
`persistent = true`, if the persisted-state file exists at that moment,
both the freshly computed `start` and `timeout` are overwritten with the
values loaded from the file, and the resulting pair is written back to the
file. -/
theorem recovery_overrides_fresh_state
    (now : Int) (a : Arg) (ps : Bool) (r : PersistRecord) :
    (∀ (t : Timeout) (fs' : FS), init now a ps true (some r) = (.ok t, fs') →
      t.start = r.start ∧ t.timeout = r.timeout ∧ fs' = some ⟨r.start, r.timeout⟩) ∧
    (∀ (t0 t : Timeout) (fs' : FS), t0.persistent = true →
      t0.reset now (some a) (some r) = (t, fs', none) →
      t.start = r.start ∧ t.timeout = r.timeout ∧ fs' = some ⟨r.start, r.timeout⟩) := by
  constructor
  · intro t fs' h
    unfold init at h
    rcases hst : set_timeout now ps true a (some r) with ⟨res, fs2⟩
    rw [hst] at h
    cases res with
    | error e => simp at h
    | ok p =>
      obtain ⟨s0, t0⟩ := p
      simp at h
      obtain ⟨hp, hfs⟩ := set_timeout_persistent_file_ok now ps a r (s0, t0) fs2 hst
      obtain ⟨ht, hfs'⟩ := h
      subst ht hfs'
      refine ⟨?_, ?_, hfs⟩
      · exact congrArg Prod.fst hp
      · exact congrArg Prod.snd hp
  · intro t0 t fs' hper h
    unfold Timeout.reset at h
    simp only at h
    rw [hper] at h
    rcases hst : set_timeout now t0.past_safe true a (some r) with ⟨res, fs2⟩
    rw [hst] at h
    cases res with
    | error e => simp at h
    | ok p =>
      obtain ⟨s0, t1⟩ := p
      simp at h
      obtain ⟨hp, hfs⟩ := set_timeout_persistent_file_ok now t0.past_safe a r (s0, t1) fs2 hst
      obtain ⟨ht, hfs2, -⟩ := h
      have hs : s0 = r.start := congrArg Prod.fst hp
      have htm : t1 = r.timeout := congrArg Prod.snd hp
      subst ht
      exact ⟨hs, htm, hfs⟩

/-- Witness for C1 at a concrete input: constructing with a fresh deadline
of 5000 ms while the file holds record (3, 7) yields the recovered values. -/
theorem recovery_overrides_fresh_state_witness :
    (⟨3, true, true, 7⟩ : Timeout).start = (⟨3, 7⟩ : PersistRecord).start ∧
    (⟨3, true, true, 7⟩ : Timeout).timeout = (⟨3, 7⟩ : PersistRecord).timeout ∧
    (some ⟨3, 7⟩ : FS) =
      some ⟨(⟨3, 7⟩ : PersistRecord).start, (⟨3, 7⟩ : PersistRecord).timeout⟩ :=
  (recovery_overrides_fresh_state 100 (.ms 5000) true ⟨3, 7⟩).1
    ⟨3, true, true, 7⟩ (some ⟨3, 7⟩) rfl

/-- C2 counterexample: a `Timeout` with `persistent = false` still writes
the persisted-state file on a bare `reset()` (lines 124-125 have no
`persistent` guard) and still deletes an existing file in `is_expired`
(lines 108-109 have no `persistent` guard), refuting the claim that the
file is touched only when `persistent = true`. -/
theorem nonpersistent_reset_writes_and_expiry_deletes :
    ((⟨0, true, false, 5000⟩ : Timeout).persistent = false ∧
      ((⟨0, true, false, 5000⟩ : Timeout).reset 7 none none).2.1 = some ⟨7, 5000⟩) ∧
    ((⟨0, true, false, 0⟩ : Timeout).persistent = false ∧
      ((⟨0, true, false, 0⟩ : Timeout).is_expired 1 (some ⟨3, 4⟩)).2 = none) :=
  ⟨⟨rfl, rfl⟩, ⟨rfl, rfl⟩⟩

/-- C2 amended: only the duration-resolution procedure (`_set_timeout`,
hence construction and `reset` with an argument) gates its file access on
`persistent`; `reset()` with no argument writes the file and `is_expired`
deletes the existing file on expiry regardless of `persistent`. -/
theorem persistence_gating_actual (t : Timeout) (now : Int) (a : Arg) (fs : FS)
    (h : t.persistent = false) :
    (set_timeout now t.past_safe t.persistent a fs).2 = fs ∧
    (t.reset now (some a) fs).2.1 = fs ∧
    (t.reset now none fs).2.1 = some ⟨now, t.timeout⟩ ∧
    (t.remaining now ≤ 0 → (t.is_expired now fs).2 = none) := by
  refine ⟨?_, ?_, ?_, ?_⟩
  · rw [h]; exact set_timeout_nonpersistent_fs now t.past_safe a fs
  · unfold Timeout.reset
    simp only [h]
    rcases hst : set_timeout now t.past_safe false a fs with ⟨res, fs2⟩
    have hfs2 : fs2 = fs := by
      have h2 := set_timeout_nonpersistent_fs now t.past_safe a fs
      rw [hst] at h2
      exact h2
    cases res with
    | error e => simpa using hfs2
    | ok p => obtain ⟨s0, t0⟩ := p; simpa using hfs2
  · rfl
  · intro hrem
    unfold Timeout.is_expired
    simp only [if_pos hrem]
    cases fs with
    | none => rfl
    | some r => rfl

/-- Witness for the amended C2 at a concrete non-persistent instance. -/
theorem persistence_gating_actual_witness :
    (set_timeout 2 true false (.ms 9) none).2 = none ∧
    ((⟨0, true, false, 5000⟩ : Timeout).reset 2 (some (.ms 9)) none).2.1 = none ∧
    ((⟨0, true, false, 5000⟩ : Timeout).reset 2 none none).2.1 = some ⟨2, 5000⟩ ∧
    ((⟨0, true, false, 5000⟩ : Timeout).remaining 2 ≤ 0 →
      ((⟨0, true, false, 5000⟩ : Timeout).is_expired 2 none).2 = none) :=
  persistence_gating_actual ⟨0, true, false, 5000⟩ 2 (.ms 9) none rfl

/-- C3: `is_expired` returns true iff `remaining ≤ 0`; when true it leaves
the file deleted (a later call with the file gone still returns true), when
false it has no side effect, and a repeated call is idempotent. -/
theorem is_expired_iff_remaining_nonpos (t : Timeout) (now : Int) (fs : FS) :
    ((t.is_expired now fs).1 = true ↔ t.remaining now ≤ 0) ∧
    (t.remaining now ≤ 0 →
      (t.is_expired now fs).2 = none ∧ (t.is_expired now none).1 = true) ∧
    (¬ t.remaining now ≤ 0 → t.is_expired now fs = (false, fs)) ∧
    t.is_expired now ((t.is_expired now fs).2) = t.is_expired now fs := by
  by_cases hrem : t.remaining now ≤ 0
  · refine ⟨by simp [Timeout.is_expired, hrem], fun _ => ⟨?_, ?_⟩,
      fun hc => absurd hrem hc, ?_⟩
    · cases fs <;> simp [Timeout.is_expired, hrem, isfile]
    · simp [Timeout.is_expired, hrem, isfile]
    · cases fs <;> simp [Timeout.is_expired, hrem, isfile]
  · exact ⟨by simp [Timeout.is_expired, hrem], fun hc => absurd hc hrem,
      fun _ => by simp [Timeout.is_expired, hrem],
      by simp [Timeout.is_expired, hrem]⟩

/-- Witness for C3 on an expired instance with the file present. -/
theorem is_expired_iff_remaining_nonpos_witness :
    (((⟨0, true, false, 0⟩ : Timeout).is_expired 5 (some ⟨1, 2⟩)).1 = true ↔
      (⟨0, true, false, 0⟩ : Timeout).remaining 5 ≤ 0) ∧
    ((⟨0, true, false, 0⟩ : Timeout).remaining 5 ≤ 0 →
      ((⟨0, true, false, 0⟩ : Timeout).is_expired 5 (some ⟨1, 2⟩)).2 = none ∧
      ((⟨0, true, false, 0⟩ : Timeout).is_expired 5 none).1 = true) ∧
    (¬ (⟨0, true, false, 0⟩ : Timeout).remaining 5 ≤ 0 →
      (⟨0, true, false, 0⟩ : Timeout).is_expired 5 (some ⟨1, 2⟩) = (false, some ⟨1, 2⟩)) ∧
    (⟨0, true, false, 0⟩ : Timeout).is_expired 5
        (((⟨0, true, false, 0⟩ : Timeout).is_expired 5 (some ⟨1, 2⟩)).2) =
      (⟨0, true, false, 0⟩ : Timeout).is_expired 5 (some ⟨1, 2⟩) :=
  is_expired_iff_remaining_nonpos ⟨0, true, false, 0⟩ 5 (some ⟨1, 2⟩)

/-- C4 counterexample: a `reset` that fails with a type error has already
re-anchored `start` (line 120 runs before the fallible call on line 122),
so in-memory state is mutated by the failing call: `start` went from 0
to 7. -/
theorem failed_reset_mutates_start :
    (Timeout.reset ⟨0, true, false, 5000⟩ 7 (some .other) none) =
      (⟨7, true, false, 5000⟩, none, some .typeError) ∧
    (7 : Int) ≠ 0 :=
  ⟨rfl, by decide⟩

/-- C4 amended: type and validation errors are raised before any file
write, so the persisted file and the stored `timeout` (and the flags) are
unchanged, and a failed construction yields no instance and no file
change; but a failed `reset` leaves `start` re-anchored to the call-time
clock reading rather than its prior value. -/
theorem errors_precede_writes_but_reset_reanchors
    (t : Timeout) (now : Int) (a : Arg) (fs : FS) (e : Err) :
    ((t.reset now (some a) fs).2.2 = some e →
      (t.reset now (some a) fs).1.timeout = t.timeout ∧
      (t.reset now (some a) fs).1.past_safe = t.past_safe ∧
      (t.reset now (some a) fs).1.persistent = t.persistent ∧
      (t.reset now (some a) fs).2.1 = fs ∧
      (t.reset now (some a) fs).1.start = now) ∧
    (∀ ps per : Bool, (init now a ps per fs).1 = .error e →
      (init now a ps per fs).2 = fs) := by
  constructor
  · intro herr
    unfold Timeout.reset at herr ⊢
    simp only at herr ⊢
    rcases hst : set_timeout now t.past_safe t.persistent a fs with ⟨res, fs2⟩
    rw [hst] at herr
    cases res with
    | ok p =>
      obtain ⟨s0, t0⟩ := p
      simp at herr
    | error e2 =>
      have hfs2 : fs2 = fs := by
        have h2 := set_timeout_error_fs now t.past_safe t.persistent a fs e2
        rw [hst] at h2
        exact h2 rfl
      subst hfs2
      exact ⟨rfl, rfl, rfl, rfl, rfl⟩
  · intro ps per herr
    unfold init at herr ⊢
    rcases hst : set_timeout now ps per a fs with ⟨res, fs2⟩
    rw [hst] at herr
    cases res with
    | ok p => obtain ⟨s0, t0⟩ := p; exact Except.noConfusion herr
    | error e2 =>
      have h2 := set_timeout_error_fs now ps per a fs e2
      rw [hst] at h2
      exact h2 rfl

/-- Witness for the amended C4 at the type-error input of the
counterexample. -/
theorem errors_precede_writes_but_reset_reanchors_witness :
    ((⟨0, true, false, 5000⟩ : Timeout).reset 7 (some .other) none).1.timeout = 5000 ∧
    ((⟨0, true, false, 5000⟩ : Timeout).reset 7 (some .other) none).2.1 = none ∧
    ((⟨0, true, false, 5000⟩ : Timeout).reset 7 (some .other) none).1.start = 7 ∧
    (init 7 .other true false none).2 = none := by
  have h := errors_precede_writes_but_reset_reanchors ⟨0, true, false, 5000⟩ 7 .other none .typeError
  have h1 := h.1 rfl
  exact ⟨h1.1, h1.2.2.2.1, h1.2.2.2.2, h.2 true false rfl⟩

/-- Helper: a successful `_set_timeout` with `past_safe = True`, when no
persistence recovery can happen (`persistent = False` or no file), returns
a non-negative timeout, because the line 70 check ran on the value that is
then returned. -/
theorem set_timeout_ok_nonneg (s : Int) (per : Bool) (a : Arg) (fs : FS)
    (hcase : per = false ∨ fs = none) (s0 t0 : Int) (fs2 : FS)
    (h : set_timeout s true per a fs = (.ok (s0, t0), fs2)) : 0 ≤ t0 := by
  unfold set_timeout at h
  cases hr : resolve s a with
  | error e => rw [hr] at h; simp at h
  | ok v =>
    rw [hr] at h
    by_cases hneg : v < 0
    · simp [hneg] at h
    · have hnlt : ¬ v < 0 := hneg
      rcases hcase with hper | hfs
      · subst hper
        simp [hnlt] at h
        omega
      · subst hfs
        cases per <;> simp [hnlt] at h <;> omega

/-- C5 counterexample: with `past_safe = true` and `persistent = true`, a
construction that recovers from a file holding `timeout = -1` stores the
negative value, because the line 70 check runs before the recovery on
lines 75-80 — refuting the claim that the stored timeout is non-negative
after every successful construction including recovery. -/
theorem recovery_stores_negative_timeout :
    (init 100 (.ms 5000) true true (some ⟨0, -1⟩)).1 = .ok ⟨0, true, true, -1⟩ ∧
    ((-1 : Int) < 0) ∧ (⟨0, true, true, -1⟩ : Timeout).past_safe = true :=
  ⟨rfl, by decide, rfl⟩

/-- C5 amended: with `past_safe = true`, the guard applies only to the
freshly computed duration at the point of resolution: a negative resolved
value raises the validation error instead of being stored, and whenever the
duration-resolution procedure — a construction or a `reset` with an
argument — succeeds without persistence recovery (`persistent = false`, or
no persisted file at that moment), the timeout it stores is non-negative.
Values loaded by persistence recovery bypass the check and may be negative,
and a bare `reset()` preserves the existing stored timeout unvalidated, so
a negative recovered value survives later bare resets. -/
theorem past_safe_guards_fresh_duration_only
    (s now : Int) (per : Bool) (a : Arg) (fs : FS) :
    (∀ v : Int, resolve s a = .ok v → v < 0 →
      (set_timeout s true per a fs).1 = .error .valueError) ∧
    ((per = false ∨ fs = none) →
      (∀ (t : Timeout) (fs2 : FS), init now a true per fs = (.ok t, fs2) →
        0 ≤ t.timeout) ∧
      (∀ (t0 t : Timeout) (fs2 : FS), t0.past_safe = true → t0.persistent = per →
        t0.reset now (some a) fs = (t, fs2, none) → 0 ≤ t.timeout)) ∧
    (∀ t0 : Timeout, (t0.reset now none fs).1.timeout = t0.timeout) := by
  refine ⟨?_, fun hcase => ⟨?_, ?_⟩, fun t0 => rfl⟩
  · intro v hr hv
    unfold set_timeout
    rw [hr]
    simp [hv]
  · intro t fs2 h
    unfold init at h
    rcases hst : set_timeout now true per a fs with ⟨res, fs3⟩
    rw [hst] at h
    cases res with
    | error e => simp at h
    | ok p =>
      obtain ⟨s0, t0⟩ := p
      simp at h
      obtain ⟨ht, -⟩ := h
      have := set_timeout_ok_nonneg now per a fs hcase s0 t0 fs3 hst
      rw [← ht]
      exact this
  · intro t0 t fs2 hps hper h
    unfold Timeout.reset at h
    simp only at h
    rcases hst : set_timeout now t0.past_safe t0.persistent a fs with ⟨res, fs3⟩
    rw [hst] at h
    cases res with
    | error e => simp at h
    | ok p =>
      obtain ⟨s0, tm⟩ := p
      simp at h
      obtain ⟨ht, -⟩ := h
      rw [hps, hper] at hst
      have := set_timeout_ok_nonneg now per a fs hcase s0 tm fs3 hst
      rw [← ht]
      exact this

/-- Witness for the amended C5: a negative fresh duration errors; a
successful non-persistent construction and a successful non-persistent
reset-with-argument both store a non-negative timeout; and a bare reset of
an instance holding a recovered timeout of -1 leaves the -1 in place. -/
theorem past_safe_guards_fresh_duration_only_witness :
    (set_timeout 0 true false (.ms (-3)) none).1 = .error .valueError ∧
    0 ≤ (⟨7, true, false, 5⟩ : Timeout).timeout ∧
    0 ≤ (⟨9, true, false, 4⟩ : Timeout).timeout ∧
    ((⟨1, true, true, -1⟩ : Timeout).reset 9 none none).1.timeout = -1 :=
  ⟨(past_safe_guards_fresh_duration_only 0 0 false (.ms (-3)) none).1 (-3) rfl (by decide),
   ((past_safe_guards_fresh_duration_only 0 7 false (.ms 5) none).2.1 (Or.inl rfl)).1
     ⟨7, true, false, 5⟩ none rfl,
   ((past_safe_guards_fresh_duration_only 0 9 false (.ms 4) none).2.1 (Or.inl rfl)).2
     ⟨2, true, false, 8⟩ ⟨9, true, false, 4⟩ none rfl rfl rfl,
   (past_safe_guards_fresh_duration_only 0 9 false (.ms 4) none).2.2 ⟨1, true, true, -1⟩⟩

/-- C6 counterexample: for an instant 0.5 ms earlier than `start`
(start 1500000 ns, instant 1000000 ns) the code resolves the duration to
-1 ms (floor division), while toward-zero truncation would give 0 ms —
refuting the claim that truncating toward-zero division is used for every
calendar instant including those earlier than `start`. -/
theorem floor_differs_from_trunc_for_past_instant :
    resolve 1500000 (.dt 1000000) = .ok (-1) ∧
    resolve_spec_trunc 1500000 1000000 = 0 ∧
    ((-1 : Int) ≠ 0) :=
  ⟨rfl, rfl, by decide⟩

/-- C6 amended: the resolved duration of a calendar instant is the floor
(toward minus infinity) of the nanosecond difference over 1000000, Python
`//` being floor division; for instants not earlier than `start` this
coincides with toward-zero truncation. -/
theorem instant_resolution_is_floor (s ns : Int) :
    resolve s (.dt ns) = .ok (Int.fdiv (ns - s) 1000000) ∧
    (s ≤ ns → Int.fdiv (ns - s) 1000000 = resolve_spec_trunc s ns) := by
  refine ⟨rfl, fun hle => ?_⟩
  unfold resolve_spec_trunc
  exact Int.fdiv_eq_tdiv (by omega) (by norm_num)

/-- Witness for the amended C6 at an instant 2.5 ms after `start = 0`. -/
theorem instant_resolution_is_floor_witness :
    resolve 0 (.dt 2500000) = .ok (Int.fdiv (2500000 - 0) 1000000) ∧
    Int.fdiv (2500000 - 0) 1000000 = resolve_spec_trunc 0 2500000 :=
  ⟨(instant_resolution_is_floor 0 2500000).1,
   (instant_resolution_is_floor 0 2500000).2 (by norm_num)⟩

/-- C7: `elapsed` is the floor-divided millisecond difference from `start`,
monotone non-decreasing in the clock, non-negative once the clock is at or
past `start`; `remaining` is `timeout - elapsed` with no clamping and can
be negative once expired. -/
theorem elapsed_floor_monotone_remaining_unclamped
    (t : Timeout) (n1 n2 : Int) (h12 : n1 ≤ n2) (hs : t.start ≤ n1) :
    t.elapsed n1 = Int.fdiv (n1 - t.start) 1000000 ∧
    t.elapsed n1 ≤ t.elapsed n2 ∧
    0 ≤ t.elapsed n1 ∧
    t.remaining n1 = t.timeout - t.elapsed n1 ∧
    Timeout.remaining ⟨0, true, false, 0⟩ 1000000 < 0 := by
  refine ⟨rfl, ?_, ?_, rfl, by decide⟩
  · unfold Timeout.elapsed
    rw [Int.fdiv_eq_ediv _ (by norm_num), Int.fdiv_eq_ediv _ (by norm_num)]
    exact Int.ediv_le_ediv (by norm_num) (by omega)
  · unfold Timeout.elapsed
    rw [Int.fdiv_eq_ediv _ (by norm_num)]
    exact Int.ediv_nonneg (by omega) (by norm_num)

/-- Witness for C7 on a concrete instance and two clock readings. -/
theorem elapsed_floor_monotone_remaining_unclamped_witness :
    Timeout.elapsed ⟨0, true, false, 10⟩ 5 = Int.fdiv (5 - 0) 1000000 ∧
    Timeout.elapsed ⟨0, true, false, 10⟩ 5 ≤ Timeout.elapsed ⟨0, true, false, 10⟩ 9 ∧
    0 ≤ Timeout.elapsed ⟨0, true, false, 10⟩ 5 ∧
    Timeout.remaining ⟨0, true, false, 10⟩ 5 = 10 - Timeout.elapsed ⟨0, true, false, 10⟩ 5 ∧
    Timeout.remaining ⟨0, true, false, 0⟩ 1000000 < 0 :=
  elapsed_floor_monotone_remaining_unclamped ⟨0, true, false, 10⟩ 5 9 (by decide) (by decide)

/-- C8: `reset()` with no argument keeps the stored duration, re-anchors
`start` to the call-time clock reading, raises no error, and immediately
afterwards `elapsed` is 0 and `remaining` equals the stored duration. -/
theorem reset_none_preserves_duration (t : Timeout) (now : Int) (fs : FS) :
    t.reset now none fs = ({ t with start := now }, some ⟨now, t.timeout⟩, none) ∧
    ({ t with start := now } : Timeout).timeout = t.timeout ∧
    ({ t with start := now } : Timeout).elapsed now = 0 ∧
    ({ t with start := now } : Timeout).remaining now = t.timeout := by
  refine ⟨rfl, rfl, ?_, ?_⟩
  · unfold Timeout.elapsed
    simp
  · unfold Timeout.remaining Timeout.elapsed
    simp

/-- C9 counterexample: a freshly constructed non-persistent `Timeout` with
the non-negative duration 0 is expired at the very instant of its
construction, refuting the claim that `is_expired` is false immediately
after construction for every non-negative duration. -/
theorem zero_duration_expired_at_birth :
    (init 0 (.ms 0) true false none).1 = .ok ⟨0, true, false, 0⟩ ∧
    ((⟨0, true, false, 0⟩ : Timeout).is_expired 0 none).1 = true :=
  ⟨rfl, rfl⟩

/-- C9 amended: for every positive duration `d`, a fresh non-persistent
`Timeout` queried at the construction instant has `remaining = d` and is
not expired; for `d = 0`, `remaining` is 0 and the timeout is already
expired. -/
theorem fresh_positive_duration_not_expired
    (d : Int) (hd : 0 < d) (now : Int) (ps : Bool) (fs : FS) :
    init now (.ms d) ps false fs = (.ok ⟨now, ps, false, d⟩, fs) ∧
    Timeout.remaining ⟨now, ps, false, d⟩ now = d ∧
    (Timeout.is_expired ⟨now, ps, false, d⟩ now fs).1 = false ∧
    Timeout.remaining ⟨now, ps, false, 0⟩ now = 0 ∧
    (Timeout.is_expired ⟨now, ps, false, 0⟩ now fs).1 = true := by
  have hnlt : ¬ d < 0 := by omega
  have hrem : Timeout.remaining ⟨now, ps, false, d⟩ now = d := by
    unfold Timeout.remaining Timeout.elapsed
    simp
  have hrem0 : Timeout.remaining ⟨now, ps, false, 0⟩ now = 0 := by
    unfold Timeout.remaining Timeout.elapsed
    simp
  refine ⟨?_, hrem, ?_, hrem0, ?_⟩
  · unfold init set_timeout resolve
    simp [hnlt]
  · unfold Timeout.is_expired
    rw [hrem]
    rw [if_neg (by omega)]
  · unfold Timeout.is_expired
    rw [hrem0]
    rw [if_pos (by omega)]

/-- Witness for the amended C9 with duration 5 ms. -/
theorem fresh_positive_duration_not_expired_witness :
    init 0 (.ms 5) true false none = (.ok ⟨0, true, false, 5⟩, none) ∧
    Timeout.remaining ⟨0, true, false, 5⟩ 0 = 5 ∧
    (Timeout.is_expired ⟨0, true, false, 5⟩ 0 none).1 = false ∧
    Timeout.remaining ⟨0, true, false, 0⟩ 0 = 0 ∧
    (Timeout.is_expired ⟨0, true, false, 0⟩ 0 none).1 = true :=
  fresh_positive_duration_not_expired 5 (by decide) 0 true none

/-- C10: for every negative duration `d`, construction with
`past_safe = false` (and `persistent = false`, the default) succeeds,
stores `d`, and `is_expired` returns true immediately afterwards. -/
theorem negative_duration_unsafe_off_expired
    (d : Int) (hd : d < 0) (now : Int) (fs : FS) :
    init now (.ms d) false false fs = (.ok ⟨now, false, false, d⟩, fs) ∧
    (Timeout.is_expired ⟨now, false, false, d⟩ now fs).1 = true := by
  constructor
  · unfold init set_timeout resolve
    simp
  · unfold Timeout.is_expired Timeout.remaining Timeout.elapsed
    rw [if_pos (by simp; omega)]

/-- Witness for C10 with duration -5 ms. -/
theorem negative_duration_unsafe_off_expired_witness :
    init 0 (.ms (-5)) false false none = (.ok ⟨0, false, false, -5⟩, none) ∧
    (Timeout.is_expired ⟨0, false, false, -5⟩ 0 none).1 = true :=
  negative_duration_unsafe_off_expired (-5) (by decide) 0 none

end Urpatimeout
